import Mathlib

/-!
Verification of the chat/game web application (Express + Mongoose server,
React client). The server-side chat service (`src/server/services/chat.service.ts`)
and chat controller (`src/server/controllers/chat.controller.ts`) are embedded as
pure Lean functions over an explicit document-database state; ORM failures are
injected through an explicit `Faults` record, and a thrown JavaScript exception
is represented by the `Except.error` constructor while caught/handled errors
become ordinary error-object return values. The client hooks
(`useNimGamePage`, `useDirectMessage`) are embedded as pure state-transition
functions.
-/

set_option autoImplicit false

/-- A message payload as carried in request bodies (`Message` in
`src/server/types/message`): text, sender, timestamp and a type tag
(`direct` or `global`). Timestamps are modelled as naturals. -/
structure Message where
  msg : String
  msgFrom : String
  msgDateTime : Nat
  type : String
deriving DecidableEq

/-- A persisted message document: a `Message` plus its database `_id`. -/
structure MessageDoc where
  _id : Nat
  msg : String
  msgFrom : String
  msgDateTime : Nat
  type : String
deriving DecidableEq

/-- A persisted user document (only the fields the chat code reads). -/
structure UserDoc where
  _id : Nat
  username : String
deriving DecidableEq

/-- A persisted chat document: participants and messages are arrays of
ObjectId references, exactly as in the Mongoose chat schema. -/
structure ChatDoc where
  _id : Nat
  participants : List Nat
  messages : List Nat
deriving DecidableEq

/-- The document database: the three collections the chat code touches plus
a counter supplying fresh ObjectIds. -/
structure DB where
  users : List UserDoc
  chats : List ChatDoc
  msgs : List MessageDoc
  nextId : Nat
deriving DecidableEq

/-- Fault-injection switches: each flag makes the corresponding Mongoose
call reject (throw), so that the `try/catch` behaviour of the services can be
examined under any failure of the underlying ORM calls. -/
structure Faults where
  failSaveMessage : Bool
  failFindUser : Bool
  failSaveChat : Bool
  failFindChat : Bool
  failUpdateChat : Bool
  failPopulate : Bool
deriving DecidableEq

/-- No injected failures: every ORM call behaves normally. -/
def noFaults : Faults :=
  { failSaveMessage := false, failFindUser := false, failSaveChat := false
    failFindChat := false, failUpdateChat := false, failPopulate := false }

/-- Mongoose `findOneAndUpdate`: scan the list for the first document
matching the filter `p`, apply the update `u` to it, and return the updated
document (the `new: true` option) together with the updated collection;
`none` when no document matches. -/
def findOneAndUpdateList {α : Type} (p : α → Bool) (u : α → α) :
    List α → Option α × List α
  | [] => (none, [])
  | c :: cs =>
    if p c then (some (u c), u c :: cs)
    else
      let r := findOneAndUpdateList p u cs
      (r.1, c :: r.2)

/-- Embeds `UserModel.findOne({ username })`: a read returning the first user with
the given username, or `none`; throws when the injected fault is on. -/
def userFindOne (f : Faults) (db : DB) (username : String) :
    Except String (Option UserDoc) :=
  if f.failFindUser then Except.error "database failure"
  else Except.ok (db.users.find? (fun u => u.username == username))

/-- Embeds `new MessageModel(m).save()`: inserts a message document with a fresh id
and returns it; throws when the injected fault is on. -/
def messageInsert (f : Faults) (db : DB) (m : Message) :
    Except String (MessageDoc × DB) :=
  if f.failSaveMessage then Except.error "database failure"
  else
    let doc : MessageDoc :=
      { _id := db.nextId, msg := m.msg, msgFrom := m.msgFrom
        msgDateTime := m.msgDateTime, type := m.type }
    Except.ok (doc, { db with msgs := db.msgs ++ [doc], nextId := db.nextId + 1 })

/-- Embeds `new ChatModel({participants, messages}).save()`: inserts a chat document
with a fresh id and returns it; throws when the injected fault is on. -/
def chatInsert (f : Faults) (db : DB) (participants messages : List Nat) :
    Except String (ChatDoc × DB) :=
  if f.failSaveChat then Except.error "database failure"
  else
    let doc : ChatDoc := { _id := db.nextId, participants := participants, messages := messages }
    Except.ok (doc, { db with chats := db.chats ++ [doc], nextId := db.nextId + 1 })

/-- Embeds `ChatModel.findById(chatId)`: a read returning the chat with the given
id, or `none`; throws when the injected fault is on. -/
def chatFindById (f : Faults) (db : DB) (chatId : Nat) :
    Except String (Option ChatDoc) :=
  if f.failFindChat then Except.error "database failure"
  else Except.ok (db.chats.find? (fun c => c._id == chatId))

/-- Embeds `ChatModel.findByIdAndUpdate(chatId, { $push: { messages } }, { new: true })`:
push a message id onto the matched chat's messages array. -/
def chatPushMessage (f : Faults) (db : DB) (chatId messageId : Nat) :
    Except String (Option ChatDoc × DB) :=
  if f.failUpdateChat then Except.error "database failure"
  else
    let r := findOneAndUpdateList (fun c => c._id == chatId)
      (fun c => { c with messages := c.messages ++ [messageId] }) db.chats
    Except.ok (r.1, { db with chats := r.2 })

/-- Embeds `ChatModel.findOneAndUpdate({_id, participants: {$ne: uid}},
{ $push: { participants: uid } }, { new: true })`: the filter matches the chat
with the given id only when its participants array does not already contain
`uid`; the update pushes `uid`. -/
def chatAddParticipantUpdate (f : Faults) (db : DB) (chatId uid : Nat) :
    Except String (Option ChatDoc × DB) :=
  if f.failUpdateChat then Except.error "database failure"
  else
    let r := findOneAndUpdateList
      (fun c => c._id == chatId && !(c.participants.contains uid))
      (fun c => { c with participants := c.participants ++ [uid] }) db.chats
    Except.ok (r.1, { db with chats := r.2 })

/-- Embeds `ChatModel.find({ participants: { $all: ids } })`: all chats whose
participants array contains every one of the given ids. -/
def chatFindAll (f : Faults) (db : DB) (ids : List Nat) :
    Except String (List ChatDoc) :=
  if f.failFindChat then Except.error "database failure"
  else Except.ok (db.chats.filter (fun c => ids.all (fun i => c.participants.contains i)))

/-- Embeds `ChatResponse`: either a chat document or an error object `{ error }`. -/
inductive ChatResponse where
  | chat (c : ChatDoc)
  | err (e : String)
deriving DecidableEq

/-- Embeds `MessageResponse`: either a message document or an error object. -/
inductive MessageResponse where
  | message (m : MessageDoc)
  | err (e : String)
deriving DecidableEq

/-- Modelled from the spec: `saveMessage` lives in
`src/server/services/message.service.ts`, which is not among the provided
sources; per the spec's description of the service layer it saves the message
document and wraps the ORM call in try/catch, returning the saved document or
an error object. -/
def saveMessage (f : Faults) (db : DB) (m : Message) : MessageResponse × DB :=
  match messageInsert f db m with
  | Except.ok (doc, db') => (MessageResponse.message doc, db')
  | Except.error e => (MessageResponse.err ("Error when saving a message: " ++ e), db)

/-- Embeds `Promise.all(chatPayload.messages.map(saveMessage))`: every `saveMessage`
call runs (each performs its insertion whether or not another fails), and the
responses are collected in order. -/
def saveMessagesAll (f : Faults) : DB → List Message → List MessageResponse × DB
  | db, [] => ([], db)
  | db, m :: ms =>
    let p := saveMessage f db m
    let q := saveMessagesAll f p.2 ms
    (p.1 :: q.1, q.2)

/-- The `for (const savedMessage of savedMessages)` loop in `saveChat`:
throw at the first error response, otherwise collect the saved ids in order. -/
def collectMessageIds : List MessageResponse → Except String (List Nat)
  | [] => Except.ok []
  | MessageResponse.err e :: _ => Except.error e
  | MessageResponse.message d :: rest =>
    match collectMessageIds rest with
    | Except.ok ids => Except.ok (d._id :: ids)
    | Except.error e => Except.error e

/-- Embeds `Promise.all(usernames.map(username => UserModel.findOne({username})))`:
all the lookups run; if any rejects the whole batch rejects. -/
def findUsersAll (f : Faults) (db : DB) : List String → Except String (List (Option UserDoc))
  | [] => Except.ok []
  | u :: us =>
    match userFindOne f db u with
    | Except.error e => Except.error e
    | Except.ok r =>
      match findUsersAll f db us with
      | Except.error e => Except.error e
      | Except.ok rs => Except.ok (r :: rs)

/-- The indexed loop of `convertUsernamesToObjectIds`: throw
`User not found: <username>` at the first missing user, otherwise collect
the ids in order. -/
def collectUserIds : List (String × Option UserDoc) → Except String (List Nat)
  | [] => Except.ok []
  | (uname, none) :: _ => Except.error ("User not found: " ++ uname)
  | (_, some u) :: rest =>
    match collectUserIds rest with
    | Except.ok ids => Except.ok (u._id :: ids)
    | Except.error e => Except.error e

/-- Embeds `convertUsernamesToObjectIds`: look up every username, then throw at the
first one with no user document; otherwise return the users' ObjectIds. -/
def convertUsernamesToObjectIds (f : Faults) (db : DB) (usernames : List String) :
    Except String (List Nat) :=
  match findUsersAll f db usernames with
  | Except.error e => Except.error e
  | Except.ok users => collectUserIds (usernames.zip users)

/-- The payload of `saveChat`: participant usernames plus full message
objects. -/
structure CreateChatPayload where
  participants : List String
  messages : List Message
deriving DecidableEq

/-- Embeds `saveChat`: save every message of the payload, abort on the first
message-save error, convert the participant usernames to ObjectIds (throwing
when a user is missing), then insert the chat document; the surrounding
try/catch turns any thrown error into the error object
`Error when saving chat: <message>` while keeping the database state reached
at the throw point. -/
def saveChat (f : Faults) (db : DB) (p : CreateChatPayload) : ChatResponse × DB :=
  let m := if p.messages.length > 0 then saveMessagesAll f db p.messages else ([], db)
  match collectMessageIds m.1 with
  | Except.error e => (ChatResponse.err ("Error when saving chat: " ++ e), m.2)
  | Except.ok messageIds =>
    match convertUsernamesToObjectIds f m.2 p.participants with
    | Except.error e => (ChatResponse.err ("Error when saving chat: " ++ e), m.2)
    | Except.ok participantObjectIds =>
      match chatInsert f m.2 participantObjectIds messageIds with
      | Except.error e => (ChatResponse.err ("Error when saving chat: " ++ e), m.2)
      | Except.ok (c, db') => (ChatResponse.chat c, db')

/-- Embeds `createMessage`: save one message document, try/catch wrapped into
`Error when creating message: <message>`. -/
def createMessage (f : Faults) (db : DB) (m : Message) : MessageResponse × DB :=
  match messageInsert f db m with
  | Except.ok (doc, db') => (MessageResponse.message doc, db')
  | Except.error e => (MessageResponse.err ("Error when creating message: " ++ e), db)

/-- Embeds `addMessageToChat`: push the message id onto the chat; `Chat not found`
when no chat matches; try/catch wrapped into
`Error when adding message to chat: <message>`. -/
def addMessageToChat (f : Faults) (db : DB) (chatId messageId : Nat) :
    ChatResponse × DB :=
  match chatPushMessage f db chatId messageId with
  | Except.error e => (ChatResponse.err ("Error when adding message to chat: " ++ e), db)
  | Except.ok (none, db') => (ChatResponse.err "Chat not found", db')
  | Except.ok (some c, db') => (ChatResponse.chat c, db')

/-- Embeds `getChat`: read the chat by id; `Chat not found` when absent; try/catch
wrapped into `Error when retrieving chat: <message>`. -/
def getChat (f : Faults) (db : DB) (chatId : Nat) : ChatResponse × DB :=
  match chatFindById f db chatId with
  | Except.error e => (ChatResponse.err ("Error when retrieving chat: " ++ e), db)
  | Except.ok none => (ChatResponse.err "Chat not found", db)
  | Except.ok (some c) => (ChatResponse.chat c, db)

/-- Embeds `getChatsByParticipants`: convert the usernames (throwing when one is
missing), then find all chats containing every id; the catch clause returns
the empty array on any failure. A pure read: the database is unchanged. -/
def getChatsByParticipants (f : Faults) (db : DB) (p : List String) : List ChatDoc :=
  match convertUsernamesToObjectIds f db p with
  | Except.error _ => []
  | Except.ok participantObjectIds =>
    match chatFindAll f db participantObjectIds with
    | Except.error _ => []
    | Except.ok chats => chats

/-- Embeds `addParticipantToChat`: look up the user (`User not found` when absent),
then `findOneAndUpdate` with the not-already-a-participant filter
(`Chat not found or user already a participant` when nothing matches);
try/catch wrapped into `Error when adding participant to chat: <message>`. -/
def addParticipantToChat (f : Faults) (db : DB) (chatId : Nat) (username : String) :
    ChatResponse × DB :=
  match userFindOne f db username with
  | Except.error e => (ChatResponse.err ("Error when adding participant to chat: " ++ e), db)
  | Except.ok none => (ChatResponse.err "User not found", db)
  | Except.ok (some user) =>
    match chatAddParticipantUpdate f db chatId user._id with
    | Except.error e => (ChatResponse.err ("Error when adding participant to chat: " ++ e), db)
    | Except.ok (none, db') => (ChatResponse.err "Chat not found or user already a participant", db')
    | Except.ok (some c, db') => (ChatResponse.chat c, db')

/-- A populated chat: the chat with its participant ids resolved to usernames
and its message ids resolved to message documents. -/
structure PopulatedChat where
  _id : Nat
  participants : List String
  messages : List MessageDoc
deriving DecidableEq

/-- Modelled from the spec: `populateDocument` lives in
`src/server/utils/database.util.ts`, which is not among the provided sources;
per the spec the routes call it to resolve the chat's participant and message
references, and it yields either the populated document or an error object
(which every route checks with `'error' in populatedChat`). `Except.error`
here stands for that error-object return. -/
def populateDocument (f : Faults) (db : DB) (chatId : Nat) :
    Except String PopulatedChat :=
  if f.failPopulate then Except.error "Error when populating document"
  else
    match db.chats.find? (fun c => c._id == chatId) with
    | none => Except.error "Chat not found"
    | some c =>
      Except.ok
        { _id := c._id
          participants := c.participants.map
            (fun pid => (((db.users.find? (fun u => u._id == pid)).map
              (fun u => u.username)).getD ""))
          messages := c.messages.filterMap
            (fun mid => db.msgs.find? (fun m => m._id == mid)) }

/-- The type tag of a `chatUpdate` socket payload. -/
inductive ChatUpdateType where
  | created
  | newMessage
  | newParticipant
deriving DecidableEq

/-- A server-side socket emission: `chatUpdate`, either broadcast
(`target = none`, from `socket.emit`) or to a room
(`target = some chatId`, from `socket.to(chatId).emit`). -/
structure ServerEmit where
  target : Option Nat
  chat : PopulatedChat
  type : ChatUpdateType
deriving DecidableEq

/-- An HTTP response: `res.status(code).send(body)`, `res.json(chat)`, or
`res.json(array of chats)`. -/
inductive RouteResponse where
  | status (code : Nat) (body : String)
  | json (chat : PopulatedChat)
  | jsonList (chats : List PopulatedChat)
deriving DecidableEq

/-- The `participants` field of a `createChat` request body, as JavaScript
sees it: absent (`undefined`, falsy), present but not an array (either a
falsy or a truthy value), or an array of username strings. -/
inductive ParticipantsField where
  | missing
  | nonArrayFalsy
  | nonArrayTruthy
  | arr (xs : List String)
deriving DecidableEq

/-- JavaScript truthiness of the `participants` field: `undefined` and falsy
non-array values are falsy; every array (even `[]`) is truthy. -/
def fieldTruthy : ParticipantsField → Bool
  | ParticipantsField.missing => false
  | ParticipantsField.nonArrayFalsy => false
  | ParticipantsField.nonArrayTruthy => true
  | ParticipantsField.arr _ => true

/-- Embeds `Array.isArray(participants)`. -/
def fieldIsArray : ParticipantsField → Bool
  | ParticipantsField.arr _ => true
  | _ => false

/-- Embeds `participants.length` (only ever read on an array). -/
def participantsLength : ParticipantsField → Nat
  | ParticipantsField.arr xs => xs.length
  | _ => 0

/-- The username list carried by an array-valued `participants` field. -/
def getParticipants : ParticipantsField → List String
  | ParticipantsField.arr xs => xs
  | _ => []

/-- The body of a `POST /chat/createChat` request: the `participants` field
and an optional `messages` array. -/
structure CreateChatBody where
  participants : ParticipantsField
  messages : Option (List Message)
deriving DecidableEq

/-- Embeds `isCreateChatRequestValid`: reject a falsy `participants`, a non-array
`participants`, and an empty `participants` array, in that order. -/
def isCreateChatRequestValid (b : CreateChatBody) : Bool :=
  if !(fieldTruthy b.participants) then false
  else if !(fieldIsArray b.participants) then false
  else if participantsLength b.participants == 0 then false
  else true

/-- Embeds `messages ? messages.map(m => ({...m, type: 'direct'})) : []`: the
formatted initial messages of `createChatRoute`, every type overwritten with
`direct`. -/
def formatCreateChatMessages : Option (List Message) → List Message
  | some ms => ms.map (fun m => { m with type := "direct" })
  | none => []

/-- The observable outcome of `createChatRoute`: the HTTP response, the
database state afterwards, the socket emissions, and whether the `saveChat`
service was invoked. -/
structure CreateChatOutcome where
  response : RouteResponse
  db : DB
  emits : List ServerEmit
  calledSaveChat : Bool
deriving DecidableEq

/-- Embeds `createChatRoute`: validate the body (400 on failure, service untouched);
then save the chat with the formatted messages, populate it, emit a broadcast
`chatUpdate` of type `created` and answer with the populated chat; any error
object from `saveChat` or `populateDocument` is rethrown and caught as a 500
with `Error creating a chat: <message>`. -/
def createChatRoute (f : Faults) (db : DB) (b : CreateChatBody) : CreateChatOutcome :=
  if !(isCreateChatRequestValid b) then
    { response := RouteResponse.status 400 "Invalid chat creation request"
      db := db, emits := [], calledSaveChat := false }
  else
    match saveChat f db
      { participants := getParticipants b.participants
        messages := formatCreateChatMessages b.messages } with
    | (ChatResponse.err e, db') =>
      { response := RouteResponse.status 500 ("Error creating a chat: " ++ e)
        db := db', emits := [], calledSaveChat := true }
    | (ChatResponse.chat c, db') =>
      match populateDocument f db' c._id with
      | Except.error e =>
        { response := RouteResponse.status 500 ("Error creating a chat: " ++ e)
          db := db', emits := [], calledSaveChat := true }
      | Except.ok pc =>
        { response := RouteResponse.json pc, db := db'
          emits := [{ target := none, chat := pc, type := ChatUpdateType.created }]
          calledSaveChat := true }

/-- The observable outcome of the remaining routes: response, database state
and socket emissions. -/
structure RouteOutcome where
  response : RouteResponse
  db : DB
  emits : List ServerEmit
deriving DecidableEq

/-- A `POST /chat/:chatId/addMessage` request: the `chatId` URL parameter
(`none` models a falsy parameter) and the `msg`, `msgFrom`, `msgDateTime`
body fields, the timestamp optional. -/
structure AddMessageRequestToChat where
  chatId : Option Nat
  msg : String
  msgFrom : String
  msgDateTime : Option Nat
deriving DecidableEq

/-- Embeds `isAddMessageRequestValid`: reject a falsy `chatId`, `msg` or `msgFrom`
(the empty string being the falsy string). -/
def isAddMessageRequestValid (r : AddMessageRequestToChat) : Bool :=
  if r.chatId.isNone then false
  else if r.msg == "" then false
  else if r.msgFrom == "" then false
  else true

/-- The `messageData` object built by `addMessageToChatRoute`:
`msgDateTime || new Date()` defaults the timestamp to the server's current
time, and `type` is the constant `direct`. -/
def mkMessageData (msg msgFrom : String) (msgDateTime : Option Nat) (now : Nat) : Message :=
  { msg := msg, msgFrom := msgFrom, msgDateTime := msgDateTime.getD now, type := "direct" }

/-- Embeds `addMessageToChatRoute`: validate (400 on failure); create the message,
push its id onto the chat, populate the chat, emit `chatUpdate` of type
`newMessage` to the chat's room and answer with the populated chat; any error
object along the way is rethrown and caught as a 500 with
`Error adding message to chat: <message>`. -/
def addMessageToChatRoute (f : Faults) (db : DB) (r : AddMessageRequestToChat)
    (now : Nat) : RouteOutcome :=
  if !(isAddMessageRequestValid r) then
    { response := RouteResponse.status 400 "Invalid message request", db := db, emits := [] }
  else
    match r.chatId with
    | none =>
      { response := RouteResponse.status 400 "Invalid message request", db := db, emits := [] }
    | some cid =>
      match createMessage f db (mkMessageData r.msg r.msgFrom r.msgDateTime now) with
      | (MessageResponse.err e, db1) =>
        { response := RouteResponse.status 500 ("Error adding message to chat: " ++ e)
          db := db1, emits := [] }
      | (MessageResponse.message m, db1) =>
        match addMessageToChat f db1 cid m._id with
        | (ChatResponse.err e, db2) =>
          { response := RouteResponse.status 500 ("Error adding message to chat: " ++ e)
            db := db2, emits := [] }
        | (ChatResponse.chat _, db2) =>
          match populateDocument f db2 cid with
          | Except.error e =>
            { response := RouteResponse.status 500 ("Error adding message to chat: " ++ e)
              db := db2, emits := [] }
          | Except.ok pc =>
            { response := RouteResponse.json pc, db := db2
              emits := [{ target := some cid, chat := pc, type := ChatUpdateType.newMessage }] }

/-- Embeds `getChatRoute`: fetch the chat, populate it by its `_id`, answer with the
populated chat; errors become a 500 with `Error retrieving chat: <message>`. -/
def getChatRoute (f : Faults) (db : DB) (chatId : Nat) : RouteOutcome :=
  match getChat f db chatId with
  | (ChatResponse.err e, db1) =>
    { response := RouteResponse.status 500 ("Error retrieving chat: " ++ e)
      db := db1, emits := [] }
  | (ChatResponse.chat c, db1) =>
    match populateDocument f db1 c._id with
    | Except.error e =>
      { response := RouteResponse.status 500 ("Error retrieving chat: " ++ e)
        db := db1, emits := [] }
    | Except.ok pc =>
      { response := RouteResponse.json pc, db := db1, emits := [] }

/-- Embeds `getChatsByUserRoute`: fetch the chats of the one user, populate each of
them, and if any populate result is an error object answer 500 with the fixed
message `Failed populating all retrieved chats`; otherwise answer with the
array of populated chats. -/
def getChatsByUserRoute (f : Faults) (db : DB) (username : String) : RouteOutcome :=
  let chats := getChatsByParticipants f db [username]
  let populatedChats := chats.map (fun c => populateDocument f db c._id)
  if populatedChats.any (fun r => match r with | Except.error _ => true | Except.ok _ => false) then
    { response := RouteResponse.status 500
        ("Error retrieving chat: " ++ "Failed populating all retrieved chats")
      db := db, emits := [] }
  else
    { response := RouteResponse.jsonList (populatedChats.filterMap (fun r => r.toOption))
      db := db, emits := [] }

/-- A `POST /chat/:chatId/addParticipant` request. -/
structure AddParticipantRequest where
  chatId : Option Nat
  username : String
deriving DecidableEq

/-- Embeds `isAddParticipantRequestValid`: reject a falsy `chatId` or `username`. -/
def isAddParticipantRequestValid (r : AddParticipantRequest) : Bool :=
  if r.chatId.isNone then false
  else if r.username == "" then false
  else true

/-- Embeds `addParticipantToChatRoute`: validate (400 on failure); add the
participant, populate the updated chat by its `_id`, emit a broadcast
`chatUpdate` of type `newParticipant` and answer with the populated chat;
errors become a 500 with `Error adding participant to chat: <message>`. -/
def addParticipantToChatRoute (f : Faults) (db : DB) (r : AddParticipantRequest) :
    RouteOutcome :=
  if !(isAddParticipantRequestValid r) then
    { response := RouteResponse.status 400 "Invalid participant request", db := db, emits := [] }
  else
    match r.chatId with
    | none =>
      { response := RouteResponse.status 400 "Invalid participant request", db := db, emits := [] }
    | some cid =>
      match addParticipantToChat f db cid r.username with
      | (ChatResponse.err e, db1) =>
        { response := RouteResponse.status 500 ("Error adding participant to chat: " ++ e)
          db := db1, emits := [] }
      | (ChatResponse.chat c, db1) =>
        match populateDocument f db1 c._id with
        | Except.error e =>
          { response := RouteResponse.status 500 ("Error adding participant to chat: " ++ e)
            db := db1, emits := [] }
        | Except.ok pc =>
          { response := RouteResponse.json pc, db := db1
            emits := [{ target := none, chat := pc, type := ChatUpdateType.newParticipant }] }

/-- JavaScript `parseInt(value, 10)`: skip leading whitespace, read an
optional sign and then a non-empty run of decimal digits (ignoring whatever
follows); `none` models `NaN`. -/
def parseIntJS (s : String) : Option Int :=
  let cs := s.toList.dropWhile (fun c => c == ' ' || c == '\t' || c == '\n' || c == '\r')
  let signAndRest : Int × List Char :=
    match cs with
    | '-' :: rest => (-1, rest)
    | '+' :: rest => (1, rest)
    | _ => (1, cs)
  let ds := signAndRest.2.takeWhile Char.isDigit
  if ds.isEmpty then none
  else some (signAndRest.1 * ((ds.foldl (fun acc c => acc * 10 + (c.toNat - 48)) 0 : Nat) : Int))

/-- Embeds `handleInputChange` of `useNimGamePage`: parse the input; when the parse
is not `NaN` and lies between 1 and 3 store it as the move, otherwise leave
the stored move unchanged. -/
def handleInputChange (move : Option Int) (value : String) : Option Int :=
  match parseIntJS value with
  | none => move
  | some numValue => if numValue ≥ 1 && numValue ≤ 3 then some numValue else move

/-- The nested move object sent by `handleMakeMove`: the player's username,
the game id and the number of objects of the move. -/
structure NimMovePayload where
  playerID : String
  gameID : String
  numObjects : Int
deriving DecidableEq

/-- A client-side socket emission. -/
inductive ClientEmit where
  | makeMove (gameID : String) (move : NimMovePayload)
  | joinChat (chatId : String)
  | leaveChat (chatId : String)
deriving DecidableEq

/-- JavaScript `Number(move)` on the `number | null` move state:
`Number(null)` is `0`. -/
def jsNumberOfMove : Option Int → Int
  | none => 0
  | some n => n

/-- Embeds `handleMakeMove` of `useNimGamePage`: emit one `makeMove` socket event
carrying the game id and the nim move built from the user's username, the
game id and `Number(move)`. -/
def handleMakeMove (gameID username : String) (move : Option Int) : List ClientEmit :=
  [ClientEmit.makeMove gameID
    { playerID := username, gameID := gameID, numObjects := jsNumberOfMove move }]

/-- A chat as the client sees it (the client `Chat` type): its `_id` is
optional, and the participant usernames stand for the rest of the record. -/
structure ClientChat where
  _id : Option String
  participants : List String
deriving DecidableEq

/-- The `created` branch of `handleChatUpdate` in `useDirectMessage`: append
the incoming chat to the list unless some chat with the same `_id` is already
present. -/
def handleChatUpdateCreated (prevChats : List ClientChat) (c : ClientChat) :
    List ClientChat :=
  if prevChats.any (fun chat => chat._id == c._id) then prevChats
  else prevChats ++ [c]

/-- The socket's handler registry: pairs of an event name and a handler
identity (the `useCallback`-produced function is identified by a number). -/
structure SocketState where
  handlers : List (String × Nat)
deriving DecidableEq

/-- The subscription performed by the `useDirectMessage` effect:
`socket.on('chatUpdate', handleChatUpdate)` registers that one handler. -/
def effectSetup (s : SocketState) (h : Nat) : SocketState :=
  { handlers := s.handlers ++ [("chatUpdate", h)] }

/-- Embeds `socket.off(event, handler)`: deregister that handler for that event. -/
def socketOff (s : SocketState) (event : String) (h : Nat) : SocketState :=
  { handlers := s.handlers.filter (fun p => !(p == (event, h))) }

/-- The cleanup function returned by the `useDirectMessage` effect:
`socket.off('chatUpdate', handleChatUpdate)`, then emit `leaveChat` with the
selected chat's id when `selectedChatRef.current?._id` is truthy. -/
def effectCleanup (s : SocketState) (h : Nat) (selected : Option ClientChat) :
    SocketState × List ClientEmit :=
  let s' := socketOff s "chatUpdate" h
  match selected with
  | some c =>
    match c._id with
    | some cid => if cid == "" then (s', []) else (s', [ClientEmit.leaveChat cid])
    | none => (s', [])
  | none => (s', [])

/-- Substring test on the underlying character lists: `sub` occurs
contiguously inside `s`. -/
def strContainsSub (s sub : String) : Bool :=
  (List.range (s.toList.length + 1)).any
    (fun i => (s.toList.drop i).take sub.toList.length == sub.toList)

/-- Only the message-save ORM call fails. -/
def faultSaveMessage : Faults := { noFaults with failSaveMessage := true }

/-- Only the user-lookup ORM call fails. -/
def faultFindUser : Faults := { noFaults with failFindUser := true }

/-- Only the chat-save ORM call fails. -/
def faultSaveChat : Faults := { noFaults with failSaveChat := true }

/-- Only the chat-lookup ORM call fails. -/
def faultFindChat : Faults := { noFaults with failFindChat := true }

/-- Only the chat-update ORM call fails. -/
def faultUpdateChat : Faults := { noFaults with failUpdateChat := true }

/-- Only the populate step fails. -/
def faultPopulate : Faults := { noFaults with failPopulate := true }

/-- A sample database: users alice and bob, one chat (id 5) whose only
participant is alice, no messages. -/
def dbSample : DB :=
  { users := [{ _id := 1, username := "alice" }, { _id := 2, username := "bob" }]
    chats := [{ _id := 5, participants := [1], messages := [] }]
    msgs := [], nextId := 10 }

/-- A sample message payload (its type deliberately not `direct`). -/
def msgSample : Message :=
  { msg := "hi", msgFrom := "alice", msgDateTime := 7, type := "global" }

/-- C1: a `POST /chat/createChat` body whose `participants` field is missing,
not an array, or an empty array is answered 400 without invoking the
`saveChat` service; any body with a non-empty `participants` array invokes
the service. -/
theorem createChatRoute_validates_participants (f : Faults) (db : DB) (b : CreateChatBody) :
    ((b.participants = ParticipantsField.missing ∨
      b.participants = ParticipantsField.nonArrayFalsy ∨
      b.participants = ParticipantsField.nonArrayTruthy ∨
      b.participants = ParticipantsField.arr []) →
      (createChatRoute f db b).response =
        RouteResponse.status 400 "Invalid chat creation request" ∧
      (createChatRoute f db b).calledSaveChat = false) ∧
    (∀ xs, b.participants = ParticipantsField.arr xs → xs ≠ [] →
      (createChatRoute f db b).calledSaveChat = true) := by
  constructor
  · rintro (h | h | h | h) <;>
      simp [createChatRoute, isCreateChatRequestValid, h, fieldTruthy, fieldIsArray,
        participantsLength]
  · rintro xs h hne
    have hv : isCreateChatRequestValid b = true := by
      simp [isCreateChatRequestValid, h, fieldTruthy, fieldIsArray, participantsLength, hne]
    unfold createChatRoute
    rw [hv]
    simp only [Bool.not_true, Bool.false_eq_true, if_false]
    split
    · rfl
    · split <;> rfl

/-- Witness for C1 at concrete inputs: a missing `participants` field yields
no service call, a one-element array yields one. -/
theorem createChatRoute_validates_participants_witness :
    (createChatRoute noFaults dbSample
      { participants := ParticipantsField.missing, messages := none }).calledSaveChat = false ∧
    (createChatRoute noFaults dbSample
      { participants := ParticipantsField.arr ["alice"], messages := none }).calledSaveChat = true :=
  ⟨((createChatRoute_validates_participants noFaults dbSample
      { participants := ParticipantsField.missing, messages := none }).1 (Or.inl rfl)).2,
   (createChatRoute_validates_participants noFaults dbSample
      { participants := ParticipantsField.arr ["alice"], messages := none }).2
      ["alice"] rfl (by decide)⟩

/-- C6: `handleInputChange` stores the parsed input exactly when it is a
number between 1 and 3 and otherwise leaves the stored move unchanged, and
`handleMakeMove` emits a single `makeMove` socket event carrying the game id,
the player's username and the stored number of objects. -/
theorem nim_move_validation (move : Option Int) (value : String) (gameID username : String) :
    (∀ n, parseIntJS value = some n → 1 ≤ n → n ≤ 3 →
      handleInputChange move value = some n) ∧
    (parseIntJS value = none → handleInputChange move value = move) ∧
    (∀ n, parseIntJS value = some n → (n < 1 ∨ 3 < n) →
      handleInputChange move value = move) ∧
    (handleMakeMove gameID username move).length = 1 ∧
    (∀ n, move = some n →
      handleMakeMove gameID username move =
        [ClientEmit.makeMove gameID
          { playerID := username, gameID := gameID, numObjects := n }]) := by
  refine ⟨?_, ?_, ?_, rfl, ?_⟩
  · intro n hp h1 h3
    simp [handleInputChange, hp, h1, h3]
  · intro hp
    simp [handleInputChange, hp]
  · intro n hp hout
    have : ¬(1 ≤ n ∧ n ≤ 3) := by omega
    simp only [handleInputChange, hp, ge_iff_le, Bool.and_eq_true, decide_eq_true_eq]
    rw [if_neg this]
  · intro n hm
    simp [handleMakeMove, jsNumberOfMove, hm]

/-- Witness for C6 at concrete inputs: the input string `2` stores move 2,
the input `7` leaves the move unchanged, and `handleMakeMove` with stored
move 2 emits exactly the one event. -/
theorem nim_move_validation_witness :
    handleInputChange none "2" = some 2 ∧
    handleInputChange (some 2) "7" = some 2 ∧
    handleMakeMove "g1" "alice" (some 2) =
      [ClientEmit.makeMove "g1" { playerID := "alice", gameID := "g1", numObjects := 2 }] :=
  ⟨(nim_move_validation none "2" "g1" "alice").1 2 (by decide) (by decide) (by decide),
   (nim_move_validation (some 2) "7" "g1" "alice").2.2.1 7 (by decide) (by decide),
   (nim_move_validation (some 2) "7" "g1" "alice").2.2.2.2 2 rfl⟩

/-- C7: the `created` branch of `handleChatUpdate` appends the incoming chat
exactly when no chat with the same id is present, so processing the same
`created` update twice leaves the list as after processing it once. -/
theorem chatUpdate_created_idempotent (prevChats : List ClientChat) (c : ClientChat) :
    ((∃ chat ∈ prevChats, chat._id = c._id) →
      handleChatUpdateCreated prevChats c = prevChats) ∧
    ((∀ chat ∈ prevChats, chat._id ≠ c._id) →
      handleChatUpdateCreated prevChats c = prevChats ++ [c]) ∧
    handleChatUpdateCreated (handleChatUpdateCreated prevChats c) c =
      handleChatUpdateCreated prevChats c := by
  refine ⟨?_, ?_, ?_⟩
  · intro h
    have : prevChats.any (fun chat => chat._id == c._id) = true := by
      rcases h with ⟨chat, hmem, hid⟩
      exact List.any_eq_true.mpr ⟨chat, hmem, by simp [hid]⟩
    simp [handleChatUpdateCreated, this]
  · intro h
    have : prevChats.any (fun chat => chat._id == c._id) = false := by
      rw [List.any_eq_false]
      intro chat hmem
      simp [h chat hmem]
    simp [handleChatUpdateCreated, this]
  · by_cases hany : prevChats.any (fun chat => chat._id == c._id) = true
    · simp [handleChatUpdateCreated, hany]
    · have hfirst : handleChatUpdateCreated prevChats c = prevChats ++ [c] := by
        simp [handleChatUpdateCreated, hany]
      rw [hfirst]
      have : (prevChats ++ [c]).any (fun chat => chat._id == c._id) = true :=
        List.any_eq_true.mpr ⟨c, by simp, by simp⟩
      simp [handleChatUpdateCreated, this, hfirst]

/-- Witness for C7 at concrete inputs: an update whose id is already present
leaves the list unchanged, a fresh id is appended. -/
theorem chatUpdate_created_idempotent_witness :
    handleChatUpdateCreated [{ _id := some "c1", participants := ["alice"] }]
      { _id := some "c1", participants := ["alice", "bob"] } =
      [{ _id := some "c1", participants := ["alice"] }] ∧
    handleChatUpdateCreated [{ _id := some "c1", participants := ["alice"] }]
      { _id := some "c2", participants := ["bob"] } =
      [{ _id := some "c1", participants := ["alice"] },
       { _id := some "c2", participants := ["bob"] }] :=
  ⟨(chatUpdate_created_idempotent [{ _id := some "c1", participants := ["alice"] }]
      { _id := some "c1", participants := ["alice", "bob"] }).1
      ⟨{ _id := some "c1", participants := ["alice"] }, by simp, rfl⟩,
   (chatUpdate_created_idempotent [{ _id := some "c1", participants := ["alice"] }]
      { _id := some "c2", participants := ["bob"] }).2.1
      (by intro chat hmem; simp at hmem; simp [hmem])⟩

lemma effectCleanup_fst (s : SocketState) (h : Nat) (sel : Option ClientChat) :
    (effectCleanup s h sel).1 = socketOff s "chatUpdate" h := by
  unfold effectCleanup
  rcases sel with _ | c
  · rfl
  · cases hc : c._id with
    | none => simp only [hc]
    | some cid => simp only [hc]; split <;> rfl

/-- C8: the effect of `useDirectMessage` registers exactly one `chatUpdate`
handler; its cleanup removes that same handler (restoring the registry),
leaves no hook-registered `chatUpdate` handler behind, and emits `leaveChat`
with the selected chat's id exactly when a chat with a truthy id is selected. -/
theorem directMessage_effect_cleanup (s : SocketState) (h : Nat)
    (sel : Option ClientChat) (hfresh : ("chatUpdate", h) ∉ s.handlers) :
    (effectSetup s h).handlers.count ("chatUpdate", h) = 1 ∧
    (effectCleanup (effectSetup s h) h sel).1.handlers = s.handlers ∧
    ("chatUpdate", h) ∉ (effectCleanup (effectSetup s h) h sel).1.handlers ∧
    (∀ c cid, sel = some c → c._id = some cid → cid ≠ "" →
      (effectCleanup (effectSetup s h) h sel).2 = [ClientEmit.leaveChat cid]) ∧
    (sel = none → (effectCleanup (effectSetup s h) h sel).2 = []) := by
  have hcount : (effectSetup s h).handlers.count ("chatUpdate", h) = 1 := by
    simp [effectSetup, List.count_append, List.count_eq_zero.mpr hfresh]
  have hrestore : (effectCleanup (effectSetup s h) h sel).1.handlers = s.handlers := by
    rw [effectCleanup_fst]
    simp only [socketOff, effectSetup, List.filter_append]
    have h1 : s.handlers.filter (fun p => !(p == ("chatUpdate", h))) = s.handlers :=
      List.filter_eq_self.mpr (fun a ha => by
        simp only [Bool.not_eq_eq_eq_not, Bool.not_true, beq_eq_false_iff_ne, ne_eq]
        rintro rfl
        exact hfresh ha)
    simp [h1]
  refine ⟨hcount, hrestore, ?_, ?_, ?_⟩
  · rw [hrestore]; exact hfresh
  · rintro c cid rfl hid hne
    simp [effectCleanup, hid, hne]
  · rintro rfl
    rfl

/-- Witness for C8 at concrete inputs: registering handler 7 on a registry
holding an unrelated handler and cleaning up with chat `c9` selected restores
the registry and emits `leaveChat c9`. -/
theorem directMessage_effect_cleanup_witness :
    (effectCleanup (effectSetup { handlers := [("other", 3)] } 7) 7
      (some { _id := some "c9", participants := [] })).1.handlers = [("other", 3)] ∧
    (effectCleanup (effectSetup { handlers := [("other", 3)] } 7) 7
      (some { _id := some "c9", participants := [] })).2 = [ClientEmit.leaveChat "c9"] :=
  ⟨(directMessage_effect_cleanup { handlers := [("other", 3)] } 7
      (some { _id := some "c9", participants := [] }) (by decide)).2.1,
   (directMessage_effect_cleanup { handlers := [("other", 3)] } 7
      (some { _id := some "c9", participants := [] }) (by decide)).2.2.2.1
      { _id := some "c9", participants := [] } "c9" rfl rfl (by decide)⟩

lemma saveMessage_mem (f : Faults) (db : DB) (m : Message) (d : MessageDoc)
    (hd : d ∈ (saveMessage f db m).2.msgs) : d ∈ db.msgs ∨ d.type = m.type := by
  by_cases hf : f.failSaveMessage
  · simp only [saveMessage, messageInsert, hf, if_true] at hd
    exact Or.inl hd
  · simp only [saveMessage, messageInsert, hf, Bool.false_eq_true, if_false,
      List.mem_append, List.mem_singleton] at hd
    rcases hd with hd | hd
    · exact Or.inl hd
    · right; rw [hd]

lemma saveMessage_chats (f : Faults) (db : DB) (m : Message) :
    (saveMessage f db m).2.chats = db.chats ∧ (saveMessage f db m).2.users = db.users := by
  by_cases hf : f.failSaveMessage <;> simp [saveMessage, messageInsert, hf]

lemma saveMessagesAll_mem (f : Faults) :
    ∀ (ms : List Message) (db : DB) (d : MessageDoc),
      d ∈ (saveMessagesAll f db ms).2.msgs →
      d ∈ db.msgs ∨ ∃ m ∈ ms, d.type = m.type := by
  intro ms
  induction ms with
  | nil => intro db d hd; exact Or.inl hd
  | cons m ms ih =>
    intro db d hd
    simp only [saveMessagesAll] at hd
    rcases ih (saveMessage f db m).2 d hd with hd' | ⟨m', hm', ht⟩
    · rcases saveMessage_mem f db m d hd' with h | h
      · exact Or.inl h
      · exact Or.inr ⟨m, by simp, h⟩
    · exact Or.inr ⟨m', by simp [hm'], ht⟩

lemma saveMessagesAll_chats (f : Faults) :
    ∀ (ms : List Message) (db : DB),
      (saveMessagesAll f db ms).2.chats = db.chats ∧
      (saveMessagesAll f db ms).2.users = db.users := by
  intro ms
  induction ms with
  | nil => intro db; exact ⟨rfl, rfl⟩
  | cons m ms ih =>
    intro db
    simp only [saveMessagesAll]
    constructor
    · rw [(ih (saveMessage f db m).2).1, (saveMessage_chats f db m).1]
    · rw [(ih (saveMessage f db m).2).2, (saveMessage_chats f db m).2]

lemma chatInsert_ok (f : Faults) (db : DB) (a b : List Nat) (c : ChatDoc) (db' : DB)
    (h : chatInsert f db a b = Except.ok (c, db')) :
    db'.msgs = db.msgs ∧ db'.users = db.users ∧ db'.chats = db.chats ++ [c] := by
  by_cases hf : f.failSaveChat
  · simp [chatInsert, hf] at h
  · simp only [chatInsert, hf, Bool.false_eq_true, if_false, Except.ok.injEq,
      Prod.mk.injEq] at h
    obtain ⟨hc, hdb⟩ := h
    subst hdb
    exact ⟨rfl, rfl, by rw [hc]⟩

lemma saveChat_db_msgs (f : Faults) (db : DB) (p : CreateChatPayload) :
    (saveChat f db p).2.msgs =
      (if p.messages.length > 0 then saveMessagesAll f db p.messages else ([], db)).2.msgs := by
  unfold saveChat
  split
  all_goals
    dsimp only
    split
    case _ => rfl
    case _ =>
      split
      case _ => rfl
      case _ =>
        split
        case _ => rfl
        case _ c db' heq => exact (chatInsert_ok f _ _ _ _ _ heq).1

lemma saveChat_mem (f : Faults) (db : DB) (p : CreateChatPayload) (d : MessageDoc)
    (hd : d ∈ (saveChat f db p).2.msgs) :
    d ∈ db.msgs ∨ ∃ m ∈ p.messages, d.type = m.type := by
  rw [saveChat_db_msgs] at hd
  by_cases hlen : p.messages.length > 0
  · rw [if_pos hlen] at hd
    exact saveMessagesAll_mem f p.messages db d hd
  · rw [if_neg hlen] at hd
    exact Or.inl hd

lemma createMessage_mem (f : Faults) (db : DB) (m : Message) (d : MessageDoc)
    (hd : d ∈ (createMessage f db m).2.msgs) : d ∈ db.msgs ∨ d.type = m.type := by
  by_cases hf : f.failSaveMessage
  · simp only [createMessage, messageInsert, hf, if_true] at hd
    exact Or.inl hd
  · simp only [createMessage, messageInsert, hf, Bool.false_eq_true, if_false,
      List.mem_append, List.mem_singleton] at hd
    rcases hd with hd | hd
    · exact Or.inl hd
    · right; rw [hd]

lemma addMessageToChat_msgs (f : Faults) (db : DB) (cid mid : Nat) :
    (addMessageToChat f db cid mid).2.msgs = db.msgs := by
  by_cases hf : f.failUpdateChat
  · simp [addMessageToChat, chatPushMessage, hf]
  · simp only [addMessageToChat, chatPushMessage, hf, Bool.false_eq_true, if_false]
    cases (findOneAndUpdateList (fun c => c._id == cid)
      (fun c => { c with messages := c.messages ++ [mid] }) db.chats).1 <;> rfl

/-- C10: messages created through the chat routes are always of type
`direct`: `createChatRoute` overwrites every initial message's type with
`direct`, `addMessageToChatRoute` builds its message with type `direct` and
defaults `msgDateTime` to the server's current time when the request omits
it, and consequently every message document either route adds to the
database has type `direct`. -/
theorem chat_routes_messages_direct :
    (∀ (ms : Option (List Message)) (m : Message),
      m ∈ formatCreateChatMessages ms → m.type = "direct") ∧
    (∀ (msg msgFrom : String) (dt : Option Nat) (now : Nat),
      (mkMessageData msg msgFrom dt now).type = "direct") ∧
    (∀ (msg msgFrom : String) (now : Nat),
      (mkMessageData msg msgFrom none now).msgDateTime = now) ∧
    (∀ (msg msgFrom : String) (t now : Nat),
      (mkMessageData msg msgFrom (some t) now).msgDateTime = t) ∧
    (∀ (f : Faults) (db : DB) (r : AddMessageRequestToChat) (now : Nat) (d : MessageDoc),
      d ∈ (addMessageToChatRoute f db r now).db.msgs → d ∈ db.msgs ∨ d.type = "direct") ∧
    (∀ (f : Faults) (db : DB) (b : CreateChatBody) (d : MessageDoc),
      d ∈ (createChatRoute f db b).db.msgs → d ∈ db.msgs ∨ d.type = "direct") := by
  have hformat : ∀ (ms : Option (List Message)) (m : Message),
      m ∈ formatCreateChatMessages ms → m.type = "direct" := by
    rintro (_ | ms) m hm
    · cases hm
    · simp only [formatCreateChatMessages, List.mem_map] at hm
      obtain ⟨m0, _, rfl⟩ := hm
      rfl
  refine ⟨hformat, fun _ _ _ _ => rfl, fun _ _ _ => rfl, fun _ _ _ _ => rfl, ?_, ?_⟩
  · intro f db r now d
    unfold addMessageToChatRoute
    by_cases hv : isAddMessageRequestValid r
    · rw [hv]
      simp only [Bool.not_true, Bool.false_eq_true, if_false]
      cases hc : r.chatId with
      | none => exact fun hd => Or.inl hd
      | some cid =>
        dsimp only
        rcases hcm : createMessage f db (mkMessageData r.msg r.msgFrom r.msgDateTime now)
          with ⟨mr, db1⟩
        have hmem1 : ∀ d', d' ∈ db1.msgs → d' ∈ db.msgs ∨ d'.type = "direct" := by
          intro d' hd'
          have : d' ∈ (createMessage f db
              (mkMessageData r.msg r.msgFrom r.msgDateTime now)).2.msgs := by
            rw [hcm]; exact hd'
          exact createMessage_mem f db _ d' this
        cases mr with
        | err e => exact hmem1 d
        | message m =>
          dsimp only
          rcases hadd : addMessageToChat f db1 cid m._id with ⟨cr, db2⟩
          have hmsgs2 : db2.msgs = db1.msgs := by
            have := addMessageToChat_msgs f db1 cid m._id
            rw [hadd] at this
            exact this
          cases cr with
          | err e => exact fun hd => hmem1 d (hmsgs2 ▸ hd)
          | chat c =>
            dsimp only
            cases hpop : populateDocument f db2 cid with
            | error e => exact fun hd => hmem1 d (hmsgs2 ▸ hd)
            | ok pc => exact fun hd => hmem1 d (hmsgs2 ▸ hd)
    · rw [eq_false_of_ne_true hv]
      simp only [Bool.not_false, if_true]
      exact fun hd => Or.inl hd
  · intro f db b d
    unfold createChatRoute
    by_cases hv : isCreateChatRequestValid b
    · rw [hv]
      simp only [Bool.not_true, Bool.false_eq_true, if_false]
      rcases hsc : saveChat f db
          { participants := getParticipants b.participants
            messages := formatCreateChatMessages b.messages } with ⟨cr, db'⟩
      have hmem1 : ∀ d', d' ∈ db'.msgs → d' ∈ db.msgs ∨ d'.type = "direct" := by
        intro d' hd'
        have hd'' : d' ∈ (saveChat f db
            { participants := getParticipants b.participants
              messages := formatCreateChatMessages b.messages }).2.msgs := by
          rw [hsc]; exact hd'
        rcases saveChat_mem f db _ d' hd'' with h | ⟨m, hm, ht⟩
        · exact Or.inl h
        · exact Or.inr (ht.trans (hformat b.messages m hm))
      cases cr with
      | err e => exact hmem1 d
      | chat c =>
        dsimp only
        cases hpop : populateDocument f db' c._id with
        | error e => exact hmem1 d
        | ok pc => exact hmem1 d
    · rw [eq_false_of_ne_true hv]
      simp only [Bool.not_false, if_true]
      exact fun hd => Or.inl hd

/-- Witness for C10 at concrete inputs: the formatted initial message and the
built message data are of type `direct`, and the omitted timestamp defaults
to the current time 42. -/
theorem chat_routes_messages_direct_witness :
    (∀ m, m ∈ formatCreateChatMessages (some [msgSample]) → m.type = "direct") ∧
    (mkMessageData "hi" "alice" none 42).type = "direct" ∧
    (mkMessageData "hi" "alice" none 42).msgDateTime = 42 ∧
    (mkMessageData "hi" "alice" (some 7) 42).msgDateTime = 7 :=
  ⟨fun m hm => chat_routes_messages_direct.1 (some [msgSample]) m hm,
   chat_routes_messages_direct.2.1 "hi" "alice" none 42,
   chat_routes_messages_direct.2.2.1 "hi" "alice" 42,
   chat_routes_messages_direct.2.2.2.1 "hi" "alice" 7 42⟩

lemma findUsersAll_noFault (f : Faults) (hf : f.failFindUser = false) (db : DB) :
    ∀ us : List String, findUsersAll f db us =
      Except.ok (us.map (fun v => db.users.find? (fun x => x.username == v))) := by
  intro us
  induction us with
  | nil => rfl
  | cons v vs ih => simp [findUsersAll, userFindOne, hf, ih]

lemma collectUserIds_error (db : DB) :
    ∀ (us : List String) (u : String), u ∈ us →
      db.users.find? (fun x => x.username == u) = none →
      ∃ e, collectUserIds
        (us.zip (us.map (fun v => db.users.find? (fun x => x.username == v)))) =
        Except.error e := by
  intro us
  induction us with
  | nil => intro u hu; exact absurd hu (List.not_mem_nil u)
  | cons v vs ih =>
    intro u hu hmiss
    simp only [List.map_cons, List.zip_cons_cons]
    cases hv : db.users.find? (fun x => x.username == v) with
    | none => exact ⟨"User not found: " ++ v, by simp [collectUserIds]⟩
    | some w =>
      have huvs : u ∈ vs := by
        rcases List.mem_cons.mp hu with h | h
        · subst h; rw [hv] at hmiss; cases hmiss
        · exact h
      obtain ⟨e, he⟩ := ih u huvs hmiss
      exact ⟨e, by simp [collectUserIds, he]⟩

lemma convertUsernames_error_of_missing (f : Faults) (hf : f.failFindUser = false)
    (db : DB) (usernames : List String) (u : String) (hu : u ∈ usernames)
    (hmiss : db.users.find? (fun x => x.username == u) = none) :
    ∃ e, convertUsernamesToObjectIds f db usernames = Except.error e := by
  obtain ⟨e, he⟩ := collectUserIds_error db usernames u hu hmiss
  refine ⟨e, ?_⟩
  unfold convertUsernamesToObjectIds
  rw [findUsersAll_noFault f hf db usernames]
  exact he

lemma saveMessagesAll_noFault (f : Faults) (hf : f.failSaveMessage = false) :
    ∀ (ms : List Message) (db : DB),
      (∃ ids, collectMessageIds (saveMessagesAll f db ms).1 = Except.ok ids) ∧
      ∃ newDocs, (saveMessagesAll f db ms).2.msgs = db.msgs ++ newDocs ∧
        newDocs.length = ms.length := by
  intro ms
  induction ms with
  | nil => intro db; exact ⟨⟨[], rfl⟩, [], by simp [saveMessagesAll], rfl⟩
  | cons m ms ih =>
    intro db
    set doc : MessageDoc := { _id := db.nextId, msg := m.msg, msgFrom := m.msgFrom, msgDateTime := m.msgDateTime, type := m.type } with hdoc
    set db1 : DB := { db with msgs := db.msgs ++ [doc], nextId := db.nextId + 1 } with hdb1
    have hsm : saveMessage f db m = (MessageResponse.message doc, db1) := by
      simp [saveMessage, messageInsert, hf, hdoc, hdb1]
    obtain ⟨⟨ids, hids⟩, docs, hdocs, hlen⟩ := ih db1
    refine ⟨⟨doc._id :: ids, ?_⟩, doc :: docs, ?_, ?_⟩
    · simp only [saveMessagesAll, hsm]
      simp only [collectMessageIds, hids]
    · simp only [saveMessagesAll, hsm]
      rw [hdocs, hdb1]
      simp
    · simp [hlen]

lemma saveChat_missing_user_core (db : DB) (p : CreateChatPayload) (u : String)
    (hu : u ∈ p.participants)
    (hmiss : db.users.find? (fun x => x.username == u) = none) :
    (∃ e, (saveChat noFaults db p).1 = ChatResponse.err e) ∧
    (saveChat noFaults db p).2.chats = db.chats ∧
    ∃ newDocs, (saveChat noFaults db p).2.msgs = db.msgs ++ newDocs ∧
      newDocs.length = p.messages.length := by
  set X := if p.messages.length > 0 then saveMessagesAll noFaults db p.messages
    else ([], db) with hX
  have husers : X.2.users = db.users := by
    by_cases hlen : p.messages.length > 0
    · rw [hX, if_pos hlen]; exact (saveMessagesAll_chats noFaults p.messages db).2
    · rw [hX, if_neg hlen]
  have hchats : X.2.chats = db.chats := by
    by_cases hlen : p.messages.length > 0
    · rw [hX, if_pos hlen]; exact (saveMessagesAll_chats noFaults p.messages db).1
    · rw [hX, if_neg hlen]
  have hmsgs : ∃ newDocs, X.2.msgs = db.msgs ++ newDocs ∧
      newDocs.length = p.messages.length := by
    by_cases hlen : p.messages.length > 0
    · rw [hX, if_pos hlen]
      exact (saveMessagesAll_noFault noFaults rfl p.messages db).2
    · have hnil : p.messages = [] := List.length_eq_zero.mp (by omega)
      rw [hX, if_neg hlen]
      exact ⟨[], by simp, by simp [hnil]⟩
  have hids : ∃ ids, collectMessageIds X.1 = Except.ok ids := by
    by_cases hlen : p.messages.length > 0
    · rw [hX, if_pos hlen]
      exact (saveMessagesAll_noFault noFaults rfl p.messages db).1
    · rw [hX, if_neg hlen]; exact ⟨[], rfl⟩
  obtain ⟨ids, hids⟩ := hids
  obtain ⟨e, hconv⟩ : ∃ e, convertUsernamesToObjectIds noFaults X.2 p.participants =
      Except.error e := by
    apply convertUsernames_error_of_missing noFaults rfl X.2 p.participants u hu
    rw [husers]; exact hmiss
  have hsc : saveChat noFaults db p =
      (ChatResponse.err ("Error when saving chat: " ++ e), X.2) := by
    unfold saveChat
    rw [← hX]
    dsimp only
    rw [hids, hconv]
  refine ⟨⟨"Error when saving chat: " ++ e, by rw [hsc]⟩, ?_, ?_⟩
  · rw [hsc]; exact hchats
  · rw [hsc]; exact hmsgs

/-- C3: when every message of the payload saves but some participant
username has no user document, `saveChat` returns an error object, creates no
chat, and the message documents saved in the first phase remain in the
database — one new document per payload message, no rollback. -/
theorem saveChat_no_rollback (db : DB) (p : CreateChatPayload) (u : String)
    (hu : u ∈ p.participants)
    (hmiss : db.users.find? (fun x => x.username == u) = none) :
    (∃ e, (saveChat noFaults db p).1 = ChatResponse.err e) ∧
    (saveChat noFaults db p).2.chats = db.chats ∧
    ∃ newDocs, (saveChat noFaults db p).2.msgs = db.msgs ++ newDocs ∧
      newDocs.length = p.messages.length :=
  saveChat_missing_user_core db p u hu hmiss

/-- Witness for C3 at a concrete input: saving a chat for the unknown user
`alice` with one initial message fails, yet the message document stays. -/
theorem saveChat_no_rollback_witness :
    (∃ e, (saveChat noFaults { users := [], chats := [], msgs := [], nextId := 0 }
      { participants := ["alice"], messages := [msgSample] }).1 = ChatResponse.err e) ∧
    (saveChat noFaults { users := [], chats := [], msgs := [], nextId := 0 }
      { participants := ["alice"], messages := [msgSample] }).2.chats = [] ∧
    ∃ newDocs, (saveChat noFaults { users := [], chats := [], msgs := [], nextId := 0 }
      { participants := ["alice"], messages := [msgSample] }).2.msgs = [] ++ newDocs ∧
      newDocs.length = 1 :=
  saveChat_no_rollback { users := [], chats := [], msgs := [], nextId := 0 }
    { participants := ["alice"], messages := [msgSample] } "alice" (by decide) (by decide)

/-- C5: the referenced-user existence check: with a missing username,
`saveChat` returns an error object without touching the chats,
`getChatsByParticipants` returns the empty array, and `addParticipantToChat`
returns the `User not found` error object leaving the whole database
unchanged. -/
theorem referenced_user_must_exist (db : DB) (p : CreateChatPayload)
    (usernames : List String) (u : String)
    (hu : u ∈ usernames)
    (hmiss : db.users.find? (fun x => x.username == u) = none)
    (hp : p.participants = usernames) (chatId : Nat) :
    (∃ e, (saveChat noFaults db p).1 = ChatResponse.err e) ∧
    (saveChat noFaults db p).2.chats = db.chats ∧
    getChatsByParticipants noFaults db usernames = [] ∧
    addParticipantToChat noFaults db chatId u = (ChatResponse.err "User not found", db) := by
  have hup : u ∈ p.participants := by rw [hp]; exact hu
  have h1 := saveChat_missing_user_core db p u hup hmiss
  refine ⟨h1.1, h1.2.1, ?_, ?_⟩
  · obtain ⟨e, he⟩ := convertUsernames_error_of_missing noFaults rfl db usernames u hu hmiss
    simp [getChatsByParticipants, he]
  · simp [addParticipantToChat, userFindOne, noFaults, hmiss]

/-- Witness for C5 at a concrete input: the unknown user `carol` makes
`saveChat` fail without touching chats, `getChatsByParticipants` return `[]`,
and `addParticipantToChat` return `User not found` with the database
unchanged. -/
theorem referenced_user_must_exist_witness :
    (∃ e, (saveChat noFaults dbSample
      { participants := ["carol"], messages := [] }).1 = ChatResponse.err e) ∧
    (saveChat noFaults dbSample
      { participants := ["carol"], messages := [] }).2.chats = dbSample.chats ∧
    getChatsByParticipants noFaults dbSample ["carol"] = [] ∧
    addParticipantToChat noFaults dbSample 5 "carol" =
      (ChatResponse.err "User not found", dbSample) :=
  referenced_user_must_exist dbSample { participants := ["carol"], messages := [] }
    ["carol"] "carol" (by decide) (by decide) rfl 5

lemma findOneAndUpdateList_none {α : Type} (p : α → Bool) (u : α → α) :
    ∀ l : List α, (∀ x ∈ l, p x = false) → findOneAndUpdateList p u l = (none, l) := by
  intro l
  induction l with
  | nil => intro _; rfl
  | cons c cs ih =>
    intro h
    unfold findOneAndUpdateList
    rw [if_neg (by simp [h c (List.mem_cons_self c cs)])]
    simp [ih (fun x hx => h x (List.mem_cons_of_mem c hx))]

lemma findOneAndUpdateList_mem {α : Type} (p : α → Bool) (u : α → α) :
    ∀ (l : List α) (y : α), y ∈ (findOneAndUpdateList p u l).2 →
      y ∈ l ∨ ∃ x, x ∈ l ∧ p x = true ∧ y = u x := by
  intro l
  induction l with
  | nil => intro y hy; exact Or.inl hy
  | cons c cs ih =>
    intro y hy
    by_cases hc : p c
    · unfold findOneAndUpdateList at hy
      rw [if_pos hc] at hy
      rcases List.mem_cons.mp hy with h | h
      · exact Or.inr ⟨c, List.mem_cons_self c cs, hc, h⟩
      · exact Or.inl (List.mem_cons_of_mem c h)
    · unfold findOneAndUpdateList at hy
      rw [if_neg hc] at hy
      rcases List.mem_cons.mp hy with h | h
      · exact Or.inl (h ▸ List.mem_cons_self c cs)
      · rcases ih y h with h' | ⟨x, hx, hpx, hyx⟩
        · exact Or.inl (List.mem_cons_of_mem c h')
        · exact Or.inr ⟨x, List.mem_cons_of_mem c hx, hpx, hyx⟩

/-- C9: `addParticipantToChat` never introduces a duplicate participant: when
the looked-up user is already a participant of every chat carrying the given
id (in particular when no such chat exists), the operation returns the
`Chat not found or user already a participant` error object and leaves the
database unchanged, and under any fault configuration it maps chats with
distinct participants to chats with distinct participants. -/
theorem addParticipant_no_duplicates (db : DB) (chatId : Nat) (username : String) :
    (∀ user, db.users.find? (fun x => x.username == username) = some user →
      (∀ c ∈ db.chats, c._id = chatId → user._id ∈ c.participants) →
      addParticipantToChat noFaults db chatId username =
        (ChatResponse.err "Chat not found or user already a participant", db)) ∧
    (∀ f : Faults, (∀ c ∈ db.chats, c.participants.Nodup) →
      ∀ c ∈ (addParticipantToChat f db chatId username).2.chats,
        c.participants.Nodup) := by
  constructor
  · intro user huser hall
    have hnone : findOneAndUpdateList
        (fun c => c._id == chatId && !(c.participants.contains user._id))
        (fun c => { c with participants := c.participants ++ [user._id] }) db.chats =
        (none, db.chats) := by
      apply findOneAndUpdateList_none
      intro x hx
      by_cases hid : x._id = chatId
      · have hin : user._id ∈ x.participants := hall x hx hid
        simp [hid, hin]
      · simp [hid]
    simp only [addParticipantToChat, userFindOne, noFaults, chatAddParticipantUpdate,
      Bool.false_eq_true, if_false, huser]
    rw [hnone]
  · intro f hnodup c hc
    by_cases hf1 : f.failFindUser = true
    · simp only [addParticipantToChat, userFindOne, hf1, if_true] at hc
      exact hnodup c hc
    · cases hu : db.users.find? (fun x => x.username == username) with
      | none =>
        simp only [addParticipantToChat, userFindOne, hf1, Bool.false_eq_true, if_false,
          hu] at hc
        exact hnodup c hc
      | some user =>
        by_cases hf2 : f.failUpdateChat = true
        · simp only [addParticipantToChat, userFindOne, hf1, Bool.false_eq_true, if_false,
            hu, chatAddParticipantUpdate, hf2, if_true] at hc
          exact hnodup c hc
        · rcases hr : findOneAndUpdateList
              (fun x => x._id == chatId && !(x.participants.contains user._id))
              (fun x => { x with participants := x.participants ++ [user._id] }) db.chats
            with ⟨ro, rl⟩
          have hc' : c ∈ rl := by
            cases ro <;>
              simpa only [addParticipantToChat, userFindOne, hf1, Bool.false_eq_true,
                if_false, hu, chatAddParticipantUpdate, hf2, hr] using hc
          have hmem : c ∈ (findOneAndUpdateList
              (fun x => x._id == chatId && !(x.participants.contains user._id))
              (fun x => { x with participants := x.participants ++ [user._id] })
              db.chats).2 := by
            rw [hr]; exact hc'
          rcases findOneAndUpdateList_mem _ _ db.chats c hmem with h | ⟨x, hx, hpx, hcx⟩
          · exact hnodup c h
          · subst hcx
            simp only [Bool.and_eq_true, Bool.not_eq_true'] at hpx
            have hnotin : user._id ∉ x.participants := by simpa using hpx.2
            have hnx := hnodup x hx
            simp only [List.nodup_append, List.nodup_cons, List.not_mem_nil,
              not_false_iff, List.nodup_nil, and_true, true_and]
            refine ⟨hnx, ?_⟩
            intro a ha hae
            simp only [List.mem_singleton] at hae
            exact hnotin (hae ▸ ha)

/-- Witness for C9 at concrete inputs: adding `alice`, already a participant
of chat 5, fails and changes nothing, and adding `bob` keeps every
participants array duplicate-free. -/
theorem addParticipant_no_duplicates_witness :
    addParticipantToChat noFaults dbSample 5 "alice" =
      (ChatResponse.err "Chat not found or user already a participant", dbSample) ∧
    ∀ c ∈ (addParticipantToChat noFaults dbSample 5 "bob").2.chats,
      c.participants.Nodup :=
  ⟨(addParticipant_no_duplicates dbSample 5 "alice").1 { _id := 1, username := "alice" }
      (by decide) (by decide),
   (addParticipant_no_duplicates dbSample 5 "bob").2 noFaults (by decide)⟩

/-- Counterexample for C2: under an injected user-lookup failure,
`getChatsByParticipants` returns the plain empty array — exactly the value a
successful call returns when no chat matches (here: `bob` exists but has no
chat) — so this operation's normal return on ORM failure carries no error
object, while `dbSample` does hold a chat for `alice`. -/
theorem getChatsByParticipants_failure_no_error_object :
    getChatsByParticipants faultFindUser dbSample ["alice"] = [] ∧
    getChatsByParticipants noFaults dbSample ["bob"] = [] ∧
    getChatsByParticipants noFaults dbSample ["alice"] =
      [{ _id := 5, participants := [1], messages := [] }] := by decide

/-- C2 amended: any failure of the underlying ORM calls — any fault
configuration in which some ORM call the operation performs rejects — leaves
each chat service operation returning normally: an error object for
`saveChat`, `createMessage`, `addMessageToChat`, `getChat` and
`addParticipantToChat`, and the empty array for `getChatsByParticipants`;
no exception escapes any operation. -/
theorem chat_service_failures_no_escape (f : Faults) (db : DB) (p : CreateChatPayload)
    (m : Message) (chatId messageId : Nat) (username : String)
    (usernames : List String) :
    (((f.failSaveMessage = true ∧ p.messages ≠ []) ∨
      (f.failFindUser = true ∧ p.participants ≠ []) ∨ f.failSaveChat = true) →
      ∃ e, (saveChat f db p).1 = ChatResponse.err e) ∧
    (f.failSaveMessage = true → ∃ e, (createMessage f db m).1 = MessageResponse.err e) ∧
    (f.failUpdateChat = true →
      ∃ e, (addMessageToChat f db chatId messageId).1 = ChatResponse.err e) ∧
    (f.failFindChat = true → ∃ e, (getChat f db chatId).1 = ChatResponse.err e) ∧
    ((f.failFindUser = true ∨ f.failUpdateChat = true) →
      ∃ e, (addParticipantToChat f db chatId username).1 = ChatResponse.err e) ∧
    (((f.failFindUser = true ∧ usernames ≠ []) ∨ f.failFindChat = true) →
      getChatsByParticipants f db usernames = []) := by
  refine ⟨?_, ?_, ?_, ?_, ?_, ?_⟩
  · intro hfail
    set X := if p.messages.length > 0 then saveMessagesAll f db p.messages
      else ([], db) with hX
    cases hcol : collectMessageIds X.1 with
    | error e =>
      refine ⟨"Error when saving chat: " ++ e, ?_⟩
      unfold saveChat
      rw [← hX]
      dsimp only
      rw [hcol]
    | ok ids =>
      cases hconv : convertUsernamesToObjectIds f X.2 p.participants with
      | error e =>
        refine ⟨"Error when saving chat: " ++ e, ?_⟩
        unfold saveChat
        rw [← hX]
        dsimp only
        rw [hcol, hconv]
      | ok pids =>
        have hins : f.failSaveChat = true := by
          rcases hfail with ⟨hf, hm⟩ | ⟨hf, hp⟩ | hf
          · exfalso
            obtain ⟨m0, ms, hms⟩ := List.exists_cons_of_ne_nil hm
            have hcol2 : collectMessageIds X.1 =
                Except.error "Error when saving a message: database failure" := by
              rw [hX, if_pos (by rw [hms]; simp)]
              rw [hms]
              simp [saveMessagesAll, saveMessage, messageInsert, hf, collectMessageIds]
            rw [hcol2] at hcol
            cases hcol
          · exfalso
            obtain ⟨u0, us, hp2⟩ := List.exists_cons_of_ne_nil hp
            have hconv2 : convertUsernamesToObjectIds f X.2 p.participants =
                Except.error "database failure" := by
              rw [hp2]
              simp [convertUsernamesToObjectIds, findUsersAll, userFindOne, hf]
            rw [hconv2] at hconv
            cases hconv
          · exact hf
        refine ⟨"Error when saving chat: " ++ "database failure", ?_⟩
        unfold saveChat
        rw [← hX]
        dsimp only
        rw [hcol, hconv]
        dsimp only
        have hchatIns : chatInsert f X.2 pids ids = Except.error "database failure" := by
          simp [chatInsert, hins]
        rw [hchatIns]
  · intro hf
    exact ⟨"Error when creating message: database failure",
      by simp [createMessage, messageInsert, hf]⟩
  · intro hf
    exact ⟨"Error when adding message to chat: database failure",
      by simp [addMessageToChat, chatPushMessage, hf]⟩
  · intro hf
    exact ⟨"Error when retrieving chat: database failure",
      by simp [getChat, chatFindById, hf]⟩
  · intro hfail
    by_cases hf1 : f.failFindUser = true
    · exact ⟨"Error when adding participant to chat: database failure",
        by simp [addParticipantToChat, userFindOne, hf1]⟩
    · have hf2 : f.failUpdateChat = true := by
        rcases hfail with hf | hf
        · exact absurd hf hf1
        · exact hf
      cases hu : db.users.find? (fun x => x.username == username) with
      | none =>
        exact ⟨"User not found",
          by simp [addParticipantToChat, userFindOne, hf1, hu]⟩
      | some user =>
        exact ⟨"Error when adding participant to chat: database failure",
          by simp [addParticipantToChat, userFindOne, hf1, hu,
            chatAddParticipantUpdate, hf2]⟩
  · intro hfail
    unfold getChatsByParticipants
    cases hconv : convertUsernamesToObjectIds f db usernames with
    | error e => rfl
    | ok ids =>
      have hfc : f.failFindChat = true := by
        rcases hfail with ⟨hf, hu⟩ | hf
        · exfalso
          obtain ⟨u0, us, hus⟩ := List.exists_cons_of_ne_nil hu
          have hconv2 : convertUsernamesToObjectIds f db usernames =
              Except.error "database failure" := by
            rw [hus]
            simp [convertUsernamesToObjectIds, findUsersAll, userFindOne, hf]
          rw [hconv2] at hconv
          cases hconv
        · exact hf
      simp [chatFindAll, hfc]

/-- Witness for C2 at concrete inputs, one fault per operation and covering
the chat-insert, chat-update and chat-find faults as well: every
fault-injected operation on the sample database returns its error value
normally. -/
theorem chat_service_failures_no_escape_witness :
    (∃ e, (saveChat faultSaveChat dbSample
      { participants := ["alice"], messages := [msgSample] }).1 = ChatResponse.err e) ∧
    (∃ e, (createMessage faultSaveMessage dbSample msgSample).1 = MessageResponse.err e) ∧
    (∃ e, (addMessageToChat faultUpdateChat dbSample 5 3).1 = ChatResponse.err e) ∧
    (∃ e, (getChat faultFindChat dbSample 5).1 = ChatResponse.err e) ∧
    (∃ e, (addParticipantToChat faultUpdateChat dbSample 5 "alice").1 = ChatResponse.err e) ∧
    getChatsByParticipants faultFindChat dbSample ["alice"] = [] :=
  ⟨(chat_service_failures_no_escape faultSaveChat dbSample
      { participants := ["alice"], messages := [msgSample] } msgSample 5 3 "alice"
      ["alice"]).1 (Or.inr (Or.inr rfl)),
   (chat_service_failures_no_escape faultSaveMessage dbSample
      { participants := ["alice"], messages := [msgSample] } msgSample 5 3 "alice"
      ["alice"]).2.1 rfl,
   (chat_service_failures_no_escape faultUpdateChat dbSample
      { participants := ["alice"], messages := [msgSample] } msgSample 5 3 "alice"
      ["alice"]).2.2.1 rfl,
   (chat_service_failures_no_escape faultFindChat dbSample
      { participants := ["alice"], messages := [msgSample] } msgSample 5 3 "alice"
      ["alice"]).2.2.2.1 rfl,
   (chat_service_failures_no_escape faultUpdateChat dbSample
      { participants := ["alice"], messages := [msgSample] } msgSample 5 3 "alice"
      ["alice"]).2.2.2.2.1 (Or.inr rfl),
   (chat_service_failures_no_escape faultFindChat dbSample
      { participants := ["alice"], messages := [msgSample] } msgSample 5 3 "alice"
      ["alice"]).2.2.2.2.2 (Or.inr rfl)⟩

lemma strContainsSub_append_right (a e : String) : strContainsSub (a ++ e) e = true := by
  unfold strContainsSub
  rw [List.any_eq_true]
  have hdata : (a ++ e).toList = a.toList ++ e.toList := by
    simp [String.toList, String.data_append]
  refine ⟨a.toList.length, ?_, ?_⟩
  · rw [List.mem_range, hdata, List.length_append]
    omega
  · rw [hdata]
    simp

/-- Counterexample for C4: for `getChatsByUserRoute` an error object from the
populate step is not propagated: the populate call fails with
`Error when populating document`, yet the 500 body is the fixed string
`Failed populating all retrieved chats`, which does not contain that error. -/
theorem getChatsByUser_error_not_propagated :
    (getChatsByUserRoute faultPopulate dbSample "alice").response =
      RouteResponse.status 500
        "Error retrieving chat: Failed populating all retrieved chats" ∧
    populateDocument faultPopulate dbSample 5 =
      Except.error "Error when populating document" ∧
    strContainsSub "Error retrieving chat: Failed populating all retrieved chats"
      "Error when populating document" = false :=
  ⟨by decide, rfl, by decide⟩

/-- C4 amended: on every chat route except `getChatsByUser`, an error object
from the wrapped service or populate call yields a 500 whose body is the
route's prefix followed by that error (hence contains it), and success yields
the populated chat as JSON; `getChatsByUserRoute` yields a 500 with the fixed
body `Failed populating all retrieved chats` when any populate result is an
error object, and the array of populated chats as JSON otherwise. -/
theorem chat_routes_error_propagation (f : Faults) (db : DB) :
    (∀ pre e : String, strContainsSub (pre ++ e) e = true) ∧
    (∀ b e db1, isCreateChatRequestValid b = true →
      saveChat f db (CreateChatPayload.mk (getParticipants b.participants)
        (formatCreateChatMessages b.messages)) = (ChatResponse.err e, db1) →
      (createChatRoute f db b).response =
        RouteResponse.status 500 ("Error creating a chat: " ++ e)) ∧
    (∀ b c db1 e, isCreateChatRequestValid b = true →
      saveChat f db (CreateChatPayload.mk (getParticipants b.participants)
        (formatCreateChatMessages b.messages)) = (ChatResponse.chat c, db1) →
      populateDocument f db1 c._id = Except.error e →
      (createChatRoute f db b).response =
        RouteResponse.status 500 ("Error creating a chat: " ++ e)) ∧
    (∀ b c db1 pc, isCreateChatRequestValid b = true →
      saveChat f db (CreateChatPayload.mk (getParticipants b.participants)
        (formatCreateChatMessages b.messages)) = (ChatResponse.chat c, db1) →
      populateDocument f db1 c._id = Except.ok pc →
      (createChatRoute f db b).response = RouteResponse.json pc) ∧
    (∀ r (now : Nat) e db1, isAddMessageRequestValid r = true →
      createMessage f db (mkMessageData r.msg r.msgFrom r.msgDateTime now) =
        (MessageResponse.err e, db1) →
      (addMessageToChatRoute f db r now).response =
        RouteResponse.status 500 ("Error adding message to chat: " ++ e)) ∧
    (∀ r (now : Nat) cid m db1 e db2, isAddMessageRequestValid r = true →
      r.chatId = some cid →
      createMessage f db (mkMessageData r.msg r.msgFrom r.msgDateTime now) =
        (MessageResponse.message m, db1) →
      addMessageToChat f db1 cid m._id = (ChatResponse.err e, db2) →
      (addMessageToChatRoute f db r now).response =
        RouteResponse.status 500 ("Error adding message to chat: " ++ e)) ∧
    (∀ r (now : Nat) cid m db1 c db2 e, isAddMessageRequestValid r = true →
      r.chatId = some cid →
      createMessage f db (mkMessageData r.msg r.msgFrom r.msgDateTime now) =
        (MessageResponse.message m, db1) →
      addMessageToChat f db1 cid m._id = (ChatResponse.chat c, db2) →
      populateDocument f db2 cid = Except.error e →
      (addMessageToChatRoute f db r now).response =
        RouteResponse.status 500 ("Error adding message to chat: " ++ e)) ∧
    (∀ r (now : Nat) cid m db1 c db2 pc, isAddMessageRequestValid r = true →
      r.chatId = some cid →
      createMessage f db (mkMessageData r.msg r.msgFrom r.msgDateTime now) =
        (MessageResponse.message m, db1) →
      addMessageToChat f db1 cid m._id = (ChatResponse.chat c, db2) →
      populateDocument f db2 cid = Except.ok pc →
      (addMessageToChatRoute f db r now).response = RouteResponse.json pc) ∧
    (∀ cid e db1, getChat f db cid = (ChatResponse.err e, db1) →
      (getChatRoute f db cid).response =
        RouteResponse.status 500 ("Error retrieving chat: " ++ e)) ∧
    (∀ cid c db1 e, getChat f db cid = (ChatResponse.chat c, db1) →
      populateDocument f db1 c._id = Except.error e →
      (getChatRoute f db cid).response =
        RouteResponse.status 500 ("Error retrieving chat: " ++ e)) ∧
    (∀ cid c db1 pc, getChat f db cid = (ChatResponse.chat c, db1) →
      populateDocument f db1 c._id = Except.ok pc →
      (getChatRoute f db cid).response = RouteResponse.json pc) ∧
    (∀ username : String,
      ((getChatsByParticipants f db [username]).map
        (fun c => populateDocument f db c._id)).any
        (fun r => match r with | Except.error _ => true | Except.ok _ => false) = true →
      (getChatsByUserRoute f db username).response =
        RouteResponse.status 500
          ("Error retrieving chat: " ++ "Failed populating all retrieved chats")) ∧
    (∀ username : String,
      ((getChatsByParticipants f db [username]).map
        (fun c => populateDocument f db c._id)).any
        (fun r => match r with | Except.error _ => true | Except.ok _ => false) = false →
      (getChatsByUserRoute f db username).response =
        RouteResponse.jsonList (((getChatsByParticipants f db [username]).map
          (fun c => populateDocument f db c._id)).filterMap (fun r => r.toOption))) ∧
    (∀ r cid e db1, isAddParticipantRequestValid r = true → r.chatId = some cid →
      addParticipantToChat f db cid r.username = (ChatResponse.err e, db1) →
      (addParticipantToChatRoute f db r).response =
        RouteResponse.status 500 ("Error adding participant to chat: " ++ e)) ∧
    (∀ r cid c db1 e, isAddParticipantRequestValid r = true → r.chatId = some cid →
      addParticipantToChat f db cid r.username = (ChatResponse.chat c, db1) →
      populateDocument f db1 c._id = Except.error e →
      (addParticipantToChatRoute f db r).response =
        RouteResponse.status 500 ("Error adding participant to chat: " ++ e)) ∧
    (∀ r cid c db1 pc, isAddParticipantRequestValid r = true → r.chatId = some cid →
      addParticipantToChat f db cid r.username = (ChatResponse.chat c, db1) →
      populateDocument f db1 c._id = Except.ok pc →
      (addParticipantToChatRoute f db r).response = RouteResponse.json pc) := by
  refine ⟨strContainsSub_append_right, ?_, ?_, ?_, ?_, ?_, ?_, ?_, ?_, ?_, ?_, ?_, ?_,
    ?_, ?_, ?_⟩
  · intro b e db1 hv hsc
    unfold createChatRoute
    rw [hv]
    simp only [Bool.not_true, Bool.false_eq_true, if_false]
    rw [hsc]
  · intro b c db1 e hv hsc hpop
    unfold createChatRoute
    rw [hv]
    simp only [Bool.not_true, Bool.false_eq_true, if_false]
    rw [hsc]
    dsimp only
    rw [hpop]
  · intro b c db1 pc hv hsc hpop
    unfold createChatRoute
    rw [hv]
    simp only [Bool.not_true, Bool.false_eq_true, if_false]
    rw [hsc]
    dsimp only
    rw [hpop]
  · intro r now e db1 hv hcm
    unfold addMessageToChatRoute
    rw [hv]
    simp only [Bool.not_true, Bool.false_eq_true, if_false]
    cases hc : r.chatId with
    | none =>
      exfalso
      simp [isAddMessageRequestValid, hc] at hv
    | some cid =>
      dsimp only
      rw [hcm]
  · intro r now cid m db1 e db2 hv hc hcm hadd
    unfold addMessageToChatRoute
    rw [hv]
    simp only [Bool.not_true, Bool.false_eq_true, if_false]
    rw [hc]
    dsimp only
    rw [hcm]
    dsimp only
    rw [hadd]
  · intro r now cid m db1 c db2 e hv hc hcm hadd hpop
    unfold addMessageToChatRoute
    rw [hv]
    simp only [Bool.not_true, Bool.false_eq_true, if_false]
    rw [hc]
    dsimp only
    rw [hcm]
    dsimp only
    rw [hadd]
    dsimp only
    rw [hpop]
  · intro r now cid m db1 c db2 pc hv hc hcm hadd hpop
    unfold addMessageToChatRoute
    rw [hv]
    simp only [Bool.not_true, Bool.false_eq_true, if_false]
    rw [hc]
    dsimp only
    rw [hcm]
    dsimp only
    rw [hadd]
    dsimp only
    rw [hpop]
  · intro cid e db1 hg
    unfold getChatRoute
    rw [hg]
  · intro cid c db1 e hg hpop
    unfold getChatRoute
    rw [hg]
    dsimp only
    rw [hpop]
  · intro cid c db1 pc hg hpop
    unfold getChatRoute
    rw [hg]
    dsimp only
    rw [hpop]
  · intro username hany
    unfold getChatsByUserRoute
    dsimp only
    rw [hany]
    rfl
  · intro username hany
    unfold getChatsByUserRoute
    dsimp only
    rw [hany]
    rfl
  · intro r cid e db1 hv hc hap
    unfold addParticipantToChatRoute
    rw [hv]
    simp only [Bool.not_true, Bool.false_eq_true, if_false]
    rw [hc]
    dsimp only
    rw [hap]
  · intro r cid c db1 e hv hc hap hpop
    unfold addParticipantToChatRoute
    rw [hv]
    simp only [Bool.not_true, Bool.false_eq_true, if_false]
    rw [hc]
    dsimp only
    rw [hap]
    dsimp only
    rw [hpop]
  · intro r cid c db1 pc hv hc hap hpop
    unfold addParticipantToChatRoute
    rw [hv]
    simp only [Bool.not_true, Bool.false_eq_true, if_false]
    rw [hc]
    dsimp only
    rw [hap]
    dsimp only
    rw [hpop]

/-- Witness for C4 at concrete inputs: an injected chat-save failure makes
`createChatRoute` answer 500 with the propagated service error, and that
body contains the error. -/
theorem chat_routes_error_propagation_witness :
    (createChatRoute faultSaveChat dbSample
      { participants := ParticipantsField.arr ["alice"], messages := none }).response =
      RouteResponse.status 500
        ("Error creating a chat: " ++ "Error when saving chat: database failure") ∧
    strContainsSub ("Error creating a chat: " ++ "Error when saving chat: database failure")
      "Error when saving chat: database failure" = true :=
  ⟨(chat_routes_error_propagation faultSaveChat dbSample).2.1
      { participants := ParticipantsField.arr ["alice"], messages := none }
      "Error when saving chat: database failure" dbSample (by decide) (by decide),
   (chat_routes_error_propagation faultSaveChat dbSample).1
      "Error creating a chat: " "Error when saving chat: database failure"⟩
